import Mathlib

/-!
Shallow embedding of the Google_RAG_Bench query-verification subsystem.

Source files embedded:
- src/src/classes/GoogleVerification.py : BaseGoogleVerifier.verify,
  GoogleVerifierSerpAPI (__init__, search), GoogleVerifierSelenium.search,
  GoogleVerifierPlaywright.search
- src/notebook/test_playwright.py : scrape_google (async Playwright + stealth)
- src/src/main.py : main (pipeline ordering)

Python dictionaries are modelled as association lists so that presence and
absence of keys is observable; scalar dict values are modelled by `FVal`
(string / number / None); a response-level value is `RVal` (a list of result
entries or a string).  Browser pages are modelled by `Page`: the elements
matching the result selector `div.g`, with the optional sub-elements each
backend looks up, plus oracle flags for whether the bounded selector waits
succeed within their timeouts.  Side effects that the claims are about
(browser launch / close, context-manager teardown, search invocations,
console printing, pipeline phases) are reified as event traces returned
alongside each function's value.
-/

set_option autoImplicit false

/-- A scalar value stored in a Python result dictionary: a string, an
integer (used for `position`), or Python `None`. -/
inductive FVal where
  | str : String → FVal
  | num : Nat → FVal
  | null : FVal
deriving DecidableEq, Repr

/-- One result entry: a Python dict with scalar values, as an association
list so that missing keys are representable. -/
abbrev Entry : Type := List (String × FVal)

/-- `d.get(key)` on an entry dict: the first binding of the key, if any. -/
def Entry.get (e : Entry) (k : String) : Option FVal :=
  (e.find? (fun p => p.1 == k)).map (fun p => p.2)

/-- The keys of an entry dict, in insertion order. -/
def Entry.keys (e : Entry) : List String :=
  List.map (fun p : String × FVal => p.1) e

/-- A value in a response-level dict: a list of result entries or a string. -/
inductive RVal where
  | entries : List Entry → RVal
  | str : String → RVal
deriving DecidableEq, Repr

/-- A search response: a Python dict from keys to response values. -/
abbrev Response : Type := List (String × RVal)

/-- `d.get(key)` on a response dict. -/
def Response.get? (r : Response) (k : String) : Option RVal :=
  (r.find? (fun p => p.1 == k)).map (fun p => p.2)

/-- The keys of a response dict, in insertion order. -/
def Response.keys (r : Response) : List String :=
  List.map (fun p : String × RVal => p.1) r

/-- `results.get("organic_results", [])` semantics: the entry list stored
under the key, or the empty list when the key is absent (or not a list). -/
def asEntries : Option RVal → List Entry
  | some (RVal.entries l) => l
  | _ => []

/-- One element matched by the result selector `div.g`:
`h3` is the inner text of a child `h3` if one exists; `aHref` is, when a
child `a` exists, the value of its `href` attribute (itself possibly Python
`None`); `vwic3b` / `dataSncf` are the inner texts of the snippet elements
the sync backends (selector `.VwiC3b`) and the async scraper (selector
`div[data-sncf]`) look for, when present. -/
structure RawElem where
  h3 : Option String
  aHref : Option (Option String)
  vwic3b : Option String
  dataSncf : Option String
deriving DecidableEq, Repr

/-- A browser page fixture.  `h3WaitOk` is the oracle for whether
`page.wait_for_selector("h3", timeout=6000)` in the sync Playwright backend
succeeds within its timeout; `divGWaitOk` likewise for
`page.wait_for_selector("div.g", timeout=15000)` in the async scraper.
`aiPanel` is `some t` when the async scraper's AI-overview container
appears within its timeout and the text of `div.YzCcne` is `t`. -/
structure Page where
  h3WaitOk : Bool
  divGWaitOk : Bool
  divG : List RawElem
  aiPanel : Option String
deriving DecidableEq, Repr

/-- Browser-session events emitted by a search invocation. -/
inductive BEvent where
  | launch
  | browserClose
  | ctxExit
deriving DecidableEq, Repr

/-- Drop leading whitespace characters from a character list. -/
def dropLeadingWs : List Char → List Char
  | [] => []
  | c :: cs => if c.isWhitespace then dropLeadingWs cs else c :: cs

/-- Python `str.strip()`: remove leading and trailing whitespace.
(Structurally recursive so that fixtures evaluate by reduction.) -/
def pyStrip (s : String) : String :=
  String.mk ((dropLeadingWs (dropLeadingWs s.data).reverse).reverse)

/-! ## GoogleVerifierSelenium (src/src/classes/GoogleVerification.py 98-155) -/

/-- `link_href = link_elem.get_attribute("href") if link_elem else ""`:
the attribute value (possibly None) when an `a` child exists, else `""`. -/
def seleniumLink : Option (Option String) → FVal
  | some (some s) => FVal.str s
  | some none => FVal.null
  | none => FVal.str ""

/-- The dict appended per kept element by `GoogleVerifierSelenium.search`:
keys `title`, `link`, `snippet` (no `position`). -/
def seleniumEntry (e : RawElem) : Entry :=
  [("title", FVal.str (e.h3.getD "")),
   ("link", seleniumLink e.aHref),
   ("snippet", FVal.str (e.vwic3b.getD ""))]

/-- The extraction loop of `GoogleVerifierSelenium.search`: elements whose
title text strips to empty are skipped (`if not title_text.strip(): continue`). -/
def seleniumExtract : List RawElem → List Entry
  | [] => []
  | e :: es =>
    if pyStrip (e.h3.getD "") = "" then seleniumExtract es
    else seleniumEntry e :: seleniumExtract es

/-- `GoogleVerifierSelenium.search`: navigates, types the query, sleeps 2s
(no bounded results wait, so no timeout branch exists), extracts over
`div.g`, and returns `{"organic_results": ...}`.  The driver is created in
`__init__` and `search` neither launches nor closes a browser session, so
its event trace is empty. -/
def GoogleVerifierSelenium.search (p : Page) : Response × List BEvent :=
  ([("organic_results", RVal.entries (seleniumExtract p.divG))], [])

/-- `GoogleVerifierSelenium.__init__` creates the driver (the one session
launch, owned by the object, not by any `search` invocation). -/
def GoogleVerifierSelenium.initEvents : List BEvent := [BEvent.launch]

/-! ## GoogleVerifierPlaywright (src/src/classes/GoogleVerification.py 162-224) -/

/-- The per-element dict of `GoogleVerifierPlaywright.search`; identical
field rules to the Selenium backend (`.VwiC3b` snippet, `""` link default). -/
def playwrightEntry (e : RawElem) : Entry :=
  [("title", FVal.str (e.h3.getD "")),
   ("link", seleniumLink e.aHref),
   ("snippet", FVal.str (e.vwic3b.getD ""))]

/-- Extraction loop of `GoogleVerifierPlaywright.search`: skips elements
whose title text strips to empty. -/
def playwrightExtract : List RawElem → List Entry
  | [] => []
  | e :: es =>
    if pyStrip (e.h3.getD "") = "" then playwrightExtract es
    else playwrightEntry e :: playwrightExtract es

/-- `GoogleVerifierPlaywright.search`: inside `with sync_playwright()` it
launches a browser, navigates, submits the query, then runs
`page.wait_for_selector("h3", timeout=6000)` with NO surrounding
try/except: a timeout raises `TimeoutError` out of `search`, skipping the
explicit `browser.close()`; the `with` block teardown (`ctxExit`) still
runs on both paths and stops the Playwright driver.  On success it
extracts over `div.g`, closes the browser, and returns
`{"organic_results": ...}`. -/
def GoogleVerifierPlaywright.search (p : Page) :
    Except String Response × List BEvent :=
  if p.h3WaitOk then
    (Except.ok [("organic_results", RVal.entries (playwrightExtract p.divG))],
     [BEvent.launch, BEvent.browserClose, BEvent.ctxExit])
  else
    (Except.error "TimeoutError",
     [BEvent.launch, BEvent.ctxExit])

/-- The organic results of a sync-Playwright search, empty when the search
raised. -/
def playwrightOrganic (p : Page) : List Entry :=
  match (GoogleVerifierPlaywright.search p).1 with
  | Except.ok r => asEntries (r.get? "organic_results")
  | Except.error _ => []

/-! ## scrape_google (src/notebook/test_playwright.py 6-91) -/

/-- `link_href = await link_el.get_attribute("href") if link_el else None`:
attribute value when an `a` child exists, else Python `None`. -/
def scrapeLink : Option (Option String) → FVal
  | some (some s) => FVal.str s
  | some none => FVal.null
  | none => FVal.null

/-- The dict appended per kept element by `scrape_google`: keys
`position`, `title`, `link`, `snippet`; `idx` comes from
`enumerate(result_divs, start=1)`; `t` is the title element's inner text. -/
def scrapeEntry (idx : Nat) (t : String) (e : RawElem) : Entry :=
  [("position", FVal.num idx),
   ("title", FVal.str t),
   ("link", scrapeLink e.aHref),
   ("snippet", FVal.str (e.dataSncf.getD ""))]

/-- Extraction loop of `scrape_google`: `idx` advances over every raw
element (enumerate), and an element is skipped only when it has NO title
element (`if not title_el: continue`) — an empty title text is kept. -/
def scrapeExtract (idx : Nat) : List RawElem → List Entry
  | [] => []
  | e :: es =>
    match e.h3 with
    | none => scrapeExtract (idx + 1) es
    | some t => scrapeEntry idx t e :: scrapeExtract (idx + 1) es

/-- `scrape_google`: inside `async with async_playwright()` it launches a
stealth browser, navigates, types the query, then waits for `div.g` under
a try/except: on timeout it prints, closes the browser and returns
`{"results_data": [], "ai_overview": ""}` (no exception escapes).  On
success it extracts (keeping raw enumerate positions), best-effort clicks
"Show more" (no effect on the returned data), best-effort reads the AI
overview panel (`""` when absent), closes the browser and returns
`{"results_data": ..., "ai_overview": ...}`. -/
def scrape_google (p : Page) : Response × List BEvent :=
  if p.divGWaitOk then
    ([("results_data", RVal.entries (scrapeExtract 1 p.divG)),
      ("ai_overview", RVal.str (p.aiPanel.getD ""))],
     [BEvent.launch, BEvent.browserClose, BEvent.ctxExit])
  else
    ([("results_data", RVal.entries []), ("ai_overview", RVal.str "")],
     [BEvent.launch, BEvent.browserClose, BEvent.ctxExit])

/-- The results_data entries of a `scrape_google` response. -/
def scrapeResults (p : Page) : List Entry :=
  asEntries ((scrape_google p).1.get? "results_data")

/-! ## GoogleVerifierSerpAPI (src/src/classes/GoogleVerification.py 62-89) -/

/-- The parameter dict built by `GoogleVerifierSerpAPI.search`. -/
structure SerpParams where
  engine : String
  q : String
  hl : String
  gl : String
  api_key : String
deriving DecidableEq, Repr

/-- Python string truthiness for an optional string: `None` and `""` are
falsy, every other string is truthy. -/
def pyStrTruthy : Option String → Bool
  | none => false
  | some s => !(s == "")

/-- Python `a or b` on optional strings: `a` when truthy, else `b`. -/
def pyOr (a b : Option String) : Option String :=
  if pyStrTruthy a then a else b

/-- `GoogleVerifierSerpAPI.__init__`: resolves
`api_key or os.getenv("SERPAPI_KEY")` and raises `ValueError` when the
resolved key is falsy.  The second component is the list of network
requests issued during construction; the constructor body contains none,
so it is the empty list on every path. -/
def GoogleVerifierSerpAPI.init (api_key envKey : Option String) :
    Except String String × List SerpParams :=
  let key := pyOr api_key envKey
  if pyStrTruthy key then (Except.ok (key.getD ""), [])
  else
    (Except.error
      "A valid SerpApi API key must be provided or set in environment.", [])

/-- `GoogleVerifierSerpAPI.search`: builds the fixed-locale parameter dict
and returns `GoogleSearch(params).get_dict()` unmodified; `net` is the
external SerpApi round-trip. -/
def GoogleVerifierSerpAPI.search (net : SerpParams → Response)
    (api_key prompt : String) : Response :=
  net (SerpParams.mk "google" prompt "en" "us" api_key)

/-! ## BaseGoogleVerifier.verify (src/src/classes/GoogleVerification.py 21-56) -/

/-- A verification record as built by `verify`. -/
structure VerificationRecord where
  prompt : String
  result_count : Nat
  analysis : String
deriving DecidableEq, Repr

/-- Console / call events emitted by `verify`. -/
inductive VEvent where
  | logLine : String → VEvent
  | searchCall : String → VEvent
  | printResult : Nat → FVal → FVal → FVal → VEvent
deriving DecidableEq, Repr

/-- The result-listing loop of `verify`:
`for i, result in enumerate(organic_results[:10], start=1)` printing
`result.get("title", "")`, `result.get("link", "")`,
`result.get("snippet", "")`. -/
def printLoop (i : Nat) : List Entry → List VEvent
  | [] => []
  | e :: es =>
    VEvent.printResult i ((e.get "title").getD (FVal.str ""))
      ((e.get "link").getD (FVal.str ""))
      ((e.get "snippet").getD (FVal.str "")) :: printLoop (i + 1) es

/-- `BaseGoogleVerifier.verify`: prints the prompt banner, calls `search`
once, reads `results.get("organic_results", [])`, prints the top 10
entries, and returns the record with `result_count` the length of that
list and the fixed analysis string. -/
def BaseGoogleVerifier.verify (search : String → Response) (prompt : String) :
    VerificationRecord × List VEvent :=
  let results := search prompt
  let organic := asEntries (results.get? "organic_results")
  (VerificationRecord.mk prompt organic.length
     "Basic snippet printout complete.",
   VEvent.logLine ("Verifying prompt: " ++ prompt)
     :: VEvent.searchCall prompt
     :: printLoop 1 (organic.take 10))

/-- Recogniser for backend-search invocation events. -/
def isSearchCall : VEvent → Bool
  | VEvent.searchCall _ => true
  | _ => false

/-- Recogniser for result-listing print events. -/
def isPrintResult : VEvent → Bool
  | VEvent.printResult _ _ _ _ => true
  | _ => false

/-! ## main (src/src/main.py 13-42) -/

/-- Pipeline-phase events of `main`. -/
inductive PEvent where
  | loadDataset
  | workerStart
  | workerWriteArtifact
  | workerExit
  | workerJoin
  | artifactRead
  | verifyCall
  | exportWrite
deriving DecidableEq, Repr

/-- The event trace of `main`: load the dataset, start the generation
worker process (`p.start()`), block on `p.join()`, unpickle the candidate
artifact, run the verifier, export.  `workerWriteArtifact` and
`workerExit` sit between start and join: modelled from the spec, the
generation worker writes its candidate artifact to `tmp_path` before
exiting (the `generate` method itself is not part of the sources), and
`Process.join` returns only after the worker process has exited. -/
def mainTrace : List PEvent :=
  [PEvent.loadDataset, PEvent.workerStart, PEvent.workerWriteArtifact,
   PEvent.workerExit, PEvent.workerJoin, PEvent.artifactRead,
   PEvent.verifyCall, PEvent.exportWrite]

/-! ## Derived predicates and concrete fixtures used by the claims -/

/-- Spec-side definition, following the spec's words (section 3): a
SearchResult is a dict with an integer `position`, a string `title`, a
string-or-null `link` and a string `snippet`. -/
def specResultShape (e : Entry) : Bool :=
  (match Entry.get e "position" with
   | some (FVal.num _) => true
   | _ => false) &&
  (match Entry.get e "title" with
   | some (FVal.str _) => true
   | _ => false) &&
  (match Entry.get e "link" with
   | some (FVal.str _) => true
   | some FVal.null => true
   | _ => false) &&
  (match Entry.get e "snippet" with
   | some (FVal.str _) => true
   | _ => false)

/-- Spec-side definition, following the spec's words (sections 3 and 6):
the uniform SearchResponse shape every backend is claimed to return: an
`organic_results` key holding SearchResult entries and an `ai_overview`
string key. -/
def specUniformShape (r : Response) : Bool :=
  (match r.get? "organic_results" with
   | some (RVal.entries l) => l.all specResultShape
   | _ => false) &&
  (match r.get? "ai_overview" with
   | some (RVal.str _) => true
   | _ => false)

/-- An emitted entry carries a title that is a string whose strip is
non-empty. -/
def entryTitleNonempty (e : Entry) : Bool :=
  match Entry.get e "title" with
  | some (FVal.str t) => !(pyStrip t == "")
  | _ => false

/-- A raw element has a title element whose text strips to non-empty. -/
def hasNonemptyTitle (e : RawElem) : Bool :=
  match e.h3 with
  | some t => !(pyStrip t == "")
  | none => false

/-- A blocked page: both bounded results waits time out; no result
elements ever appear. -/
def c1page : Page := Page.mk false false [] none

/-- A page on which every wait succeeds and no result elements exist. -/
def c7page : Page := Page.mk true true [] none

/-- A second concrete page for the amended-C7 witness. -/
def c7wpage : Page := Page.mk true true [] (some "overview")

/-- A one-result page whose single element has a non-empty title, a link
and a snippet; both waits succeed. -/
def c2page : Page :=
  Page.mk true true
    [RawElem.mk (some "Example result") (some (some "https://example.org"))
      (some "A snippet") none] none

/-- A one-result page with a non-empty title, for the C3 counterexample. -/
def c3page : Page :=
  Page.mk true true
    [RawElem.mk (some "Boston Theatre") (some (some "https://example.org/t"))
      (some "oldest operating theater") none] none

/-- A two-result page whose elements both have non-empty titles. -/
def c3wpage : Page :=
  Page.mk true true
    [RawElem.mk (some "First") (some (some "https://a.example")) (some "sa")
      (some "sa2"),
     RawElem.mk (some "Second") (some none) none (some "sb2")] none

/-- A page whose single element has a title element with empty text. -/
def c4page : Page :=
  Page.mk true true [RawElem.mk (some "") none none none] none

/-! ## Helper lemmas -/

/-- The result-listing loop emits only print events, never a search call. -/
theorem printLoop_countP_searchCall (i : Nat) (l : List Entry) :
    (printLoop i l).countP isSearchCall = 0 := by
  induction l generalizing i with
  | nil => rfl
  | cons e es ih => simp [printLoop, List.countP_cons, isSearchCall, ih]

/-- Python truthiness distributes over Python `or` on optional strings. -/
theorem pyStrTruthy_pyOr (a e : Option String) :
    pyStrTruthy (pyOr a e) = (pyStrTruthy a || pyStrTruthy e) := by
  unfold pyOr
  by_cases h : pyStrTruthy a = true
  · simp [h]
  · simp [Bool.not_eq_true] at h
    simp [h]

/-! ## C5 -/

/-- C5: the VerificationRecord returned by `verify` has `result_count`
equal to the length of the `organic_results` sequence of the response
obtained from the backend in that same call. -/
theorem verify_result_count_matches (search : String → Response)
    (prompt : String) (l : List Entry)
    (h : (search prompt).get? "organic_results" = some (RVal.entries l)) :
    (BaseGoogleVerifier.verify search prompt).1.result_count = l.length := by
  unfold BaseGoogleVerifier.verify
  simp [h, asEntries]

/-- Witness for C5 at a concrete backend returning two organic results. -/
theorem verify_result_count_matches_witness :
    (BaseGoogleVerifier.verify
      (fun _ => [("organic_results",
        RVal.entries [[("title", FVal.str "a")], [("title", FVal.str "b")]])])
      "q").1.result_count = 2 :=
  verify_result_count_matches _ "q"
    [[("title", FVal.str "a")], [("title", FVal.str "b")]] rfl

/-! ## C9 -/

/-- C9: a single `verify` call invokes the wrapped backend's `search`
exactly once: its event trace contains exactly one search-call event. -/
theorem verify_calls_search_once (search : String → Response)
    (prompt : String) :
    ((BaseGoogleVerifier.verify search prompt).2.countP isSearchCall) = 1 := by
  unfold BaseGoogleVerifier.verify
  simp [List.countP_cons, isSearchCall, printLoop_countP_searchCall]

/-! ## C10 -/

/-- C10: when the backend's response dict lacks the `organic_results` key,
`verify` returns normally (it is a total function here) with
`result_count = 0` and prints no result listing. -/
theorem verify_missing_key_zero (search : String → Response) (prompt : String)
    (h : (search prompt).get? "organic_results" = none) :
    (BaseGoogleVerifier.verify search prompt).1.result_count = 0 ∧
    (BaseGoogleVerifier.verify search prompt).2.countP isPrintResult = 0 := by
  unfold BaseGoogleVerifier.verify
  simp [h, asEntries, printLoop, List.countP_cons, isPrintResult]

/-- Witness for C10 at a backend returning an error dict with no
`organic_results` key. -/
theorem verify_missing_key_zero_witness :
    (BaseGoogleVerifier.verify
      (fun _ => [("error", RVal.str "ocean")]) "q").1.result_count = 0 ∧
    (BaseGoogleVerifier.verify
      (fun _ => [("error", RVal.str "ocean")]) "q").2.countP isPrintResult = 0 :=
  verify_missing_key_zero (fun _ => [("error", RVal.str "ocean")]) "q" rfl

/-! ## C6 -/

/-- C6: constructing the SerpApi backend with no credential from either
source fails with the configuration error; a truthy credential from either
source makes construction succeed; and on every path the constructor
issues no network request. -/
theorem serp_init_credential (a e : Option String) :
    ((a = none ∧ e = none) → (GoogleVerifierSerpAPI.init a e).1 =
      Except.error
        "A valid SerpApi API key must be provided or set in environment.") ∧
    ((pyStrTruthy a || pyStrTruthy e) = true →
      (GoogleVerifierSerpAPI.init a e).1.isOk = true) ∧
    (GoogleVerifierSerpAPI.init a e).2 = [] := by
  refine ⟨?_, ?_, ?_⟩
  · rintro ⟨rfl, rfl⟩
    rfl
  · intro h
    rw [← pyStrTruthy_pyOr] at h
    simp [GoogleVerifierSerpAPI.init, h, Except.isOk, Except.toBool]
  · by_cases h : pyStrTruthy (pyOr a e) = true <;>
      simp [GoogleVerifierSerpAPI.init, h]

/-- Witness for C6: no sources at all fails; an explicit key succeeds. -/
theorem serp_init_credential_witness :
    (GoogleVerifierSerpAPI.init none none).1 =
      Except.error
        "A valid SerpApi API key must be provided or set in environment." ∧
    (GoogleVerifierSerpAPI.init (some "k") none).1.isOk = true :=
  ⟨(serp_init_credential none none).1 ⟨rfl, rfl⟩,
   (serp_init_credential (some "k") none).2.1 (by decide)⟩

/-! ## C8 -/

/-- C8: in the pipeline trace of `main`, the generation worker writes its
artifact and exits, and the orchestrator joins it and reads the artifact,
strictly before the (single) verification call; generation and
verification never overlap. -/
theorem main_generation_before_verification :
    mainTrace.indexOf PEvent.workerWriteArtifact <
      mainTrace.indexOf PEvent.verifyCall ∧
    mainTrace.indexOf PEvent.workerExit < mainTrace.indexOf PEvent.verifyCall ∧
    mainTrace.indexOf PEvent.workerJoin < mainTrace.indexOf PEvent.verifyCall ∧
    mainTrace.indexOf PEvent.artifactRead < mainTrace.indexOf PEvent.verifyCall ∧
    mainTrace.count PEvent.verifyCall = 1 ∧
    mainTrace.count PEvent.workerStart = 1 := by
  decide

/-! ## C1 -/

/-- C1 counterexample: in the sync Playwright backend the results wait has
no exception handler, so on a blocked page `search` raises the timeout
instead of returning the empty SearchResponse. -/
theorem playwright_timeout_raises :
    (GoogleVerifierPlaywright.search c1page).1 =
      Except.error "TimeoutError" := rfl

/-- C1 amended: in the async browser backend (`scrape_google`), a
results-wait timeout is caught and yields
`{"results_data": [], "ai_overview": ""}` without raising (the function is
total); the sync Playwright backend propagates the timeout instead. -/
theorem scrape_google_timeout_empty (p : Page) (h : p.divGWaitOk = false) :
    (scrape_google p).1 =
      [("results_data", RVal.entries []), ("ai_overview", RVal.str "")] := by
  unfold scrape_google
  simp [h]

/-- Witness for the amended C1 at the concrete blocked page. -/
theorem scrape_google_timeout_empty_witness :
    (scrape_google c1page).1 =
      [("results_data", RVal.entries []), ("ai_overview", RVal.str "")] :=
  scrape_google_timeout_empty c1page rfl

/-! ## C7 -/

/-- C7 counterexample: the Selenium backend's `search` emits no
session-release event on any path (its driver is created in `__init__`
and stays open after `search` returns), so the per-search state machine
never reaches the Closed state there. -/
theorem selenium_search_releases_nothing :
    (GoogleVerifierSelenium.search c7page).2 = [] ∧
    BEvent.browserClose ∉ (GoogleVerifierSelenium.search c7page).2 ∧
    BEvent.ctxExit ∉ (GoogleVerifierSelenium.search c7page).2 := by
  refine ⟨rfl, by decide, by decide⟩

/-- C7 amended: the Playwright-based searches tear their session down on
every exit path: the async scraper closes the browser explicitly on both
the timeout and the success path; the sync backend always runs the
`sync_playwright` context-manager teardown, and additionally closes the
browser explicitly whenever it returns successfully. -/
theorem playwright_sessions_released (p : Page) :
    BEvent.browserClose ∈ (scrape_google p).2 ∧
    BEvent.ctxExit ∈ (scrape_google p).2 ∧
    BEvent.ctxExit ∈ (GoogleVerifierPlaywright.search p).2 ∧
    ((GoogleVerifierPlaywright.search p).1.isOk = true →
      BEvent.browserClose ∈ (GoogleVerifierPlaywright.search p).2) := by
  unfold scrape_google GoogleVerifierPlaywright.search
  by_cases h : p.divGWaitOk <;> by_cases h2 : p.h3WaitOk <;>
    simp [h, h2, Except.isOk, Except.toBool]

/-- Witness for the amended C7 at a concrete page whose results wait
succeeds. -/
theorem playwright_sessions_released_witness :
    BEvent.browserClose ∈ (GoogleVerifierPlaywright.search c7wpage).2 :=
  (playwright_sessions_released c7wpage).2.2.2 (by rfl)

/-! ## Extraction-loop lemmas -/

/-- Every entry the Selenium extraction emits has exactly the keys
`title`, `link`, `snippet`. -/
theorem seleniumExtract_keys (l : List RawElem) :
    (seleniumExtract l).all
      (fun e => Entry.keys e == ["title", "link", "snippet"]) = true := by
  induction l with
  | nil => rfl
  | cons e es ih =>
    unfold seleniumExtract
    split
    · exact ih
    · simp only [List.all_cons, Bool.and_eq_true]
      exact ⟨rfl, ih⟩

/-- Every entry the sync-Playwright extraction emits has exactly the keys
`title`, `link`, `snippet`. -/
theorem playwrightExtract_keys (l : List RawElem) :
    (playwrightExtract l).all
      (fun e => Entry.keys e == ["title", "link", "snippet"]) = true := by
  induction l with
  | nil => rfl
  | cons e es ih =>
    unfold playwrightExtract
    split
    · exact ih
    · simp only [List.all_cons, Bool.and_eq_true]
      exact ⟨rfl, ih⟩

/-- Every entry the async extraction emits has exactly the keys
`position`, `title`, `link`, `snippet`. -/
theorem scrapeExtract_keys (n : Nat) (l : List RawElem) :
    (scrapeExtract n l).all
      (fun e => Entry.keys e == ["position", "title", "link", "snippet"])
      = true := by
  induction l generalizing n with
  | nil => rfl
  | cons e es ih =>
    unfold scrapeExtract
    cases e.h3 with
    | none => exact ih n.succ
    | some t =>
      simp only [List.all_cons, Bool.and_eq_true]
      exact ⟨rfl, ih n.succ⟩

/-- Every entry the Selenium extraction emits has a non-whitespace title. -/
theorem seleniumExtract_titles (l : List RawElem) :
    (seleniumExtract l).all entryTitleNonempty = true := by
  induction l with
  | nil => rfl
  | cons e es ih =>
    unfold seleniumExtract
    split
    · exact ih
    · rename_i h
      simp [List.all_cons, ih, entryTitleNonempty, seleniumEntry, Entry.get,
        List.find?, h]

/-- Every entry the sync-Playwright extraction emits has a non-whitespace
title. -/
theorem playwrightExtract_titles (l : List RawElem) :
    (playwrightExtract l).all entryTitleNonempty = true := by
  induction l with
  | nil => rfl
  | cons e es ih =>
    unfold playwrightExtract
    split
    · exact ih
    · rename_i h
      simp [List.all_cons, ih, entryTitleNonempty, playwrightEntry, Entry.get,
        List.find?, h]

/-- The Selenium extraction never emits more entries than there are raw
elements. -/
theorem seleniumExtract_length_le (l : List RawElem) :
    (seleniumExtract l).length ≤ l.length := by
  induction l with
  | nil => exact Nat.le_refl 0
  | cons e es ih =>
    unfold seleniumExtract
    split
    · exact Nat.le_succ_of_le ih
    · simpa [List.length_cons] using Nat.succ_le_succ ih

/-- The sync-Playwright extraction never emits more entries than there are
raw elements. -/
theorem playwrightExtract_length_le (l : List RawElem) :
    (playwrightExtract l).length ≤ l.length := by
  induction l with
  | nil => exact Nat.le_refl 0
  | cons e es ih =>
    unfold playwrightExtract
    split
    · exact Nat.le_succ_of_le ih
    · simpa [List.length_cons] using Nat.succ_le_succ ih

/-- The async extraction never emits more entries than there are raw
elements. -/
theorem scrapeExtract_length_le (n : Nat) (l : List RawElem) :
    (scrapeExtract n l).length ≤ l.length := by
  induction l generalizing n with
  | nil => exact Nat.le_refl 0
  | cons e es ih =>
    unfold scrapeExtract
    cases e.h3 with
    | none => exact Nat.le_succ_of_le (ih n.succ)
    | some t => simpa [List.length_cons] using Nat.succ_le_succ (ih n.succ)

/-- The sync-Playwright organic results are the extraction output when the
results wait succeeded, and empty when the search raised. -/
theorem playwrightOrganic_eq (p : Page) :
    playwrightOrganic p =
      if p.h3WaitOk then playwrightExtract p.divG else [] := by
  unfold playwrightOrganic GoogleVerifierPlaywright.search
  by_cases h : p.h3WaitOk <;> simp [h, Response.get?, asEntries, List.find?]

/-- The async results_data entries are the extraction output when the
results wait succeeded, and empty on a timeout. -/
theorem scrapeResults_eq (p : Page) :
    scrapeResults p =
      if p.divGWaitOk then scrapeExtract 1 p.divG else [] := by
  unfold scrapeResults scrape_google
  by_cases h : p.divGWaitOk <;>
    simp [h, Response.get?, asEntries, List.find?]

/-- The first binding of the dict the async extraction emits is the
enumerate position. -/
theorem scrapeEntry_position (n : Nat) (t : String) (e : RawElem) :
    Entry.get (scrapeEntry n t e) "position" = some (FVal.num n) := rfl

/-- Positions assigned by the async extraction over an all-titled raw list:
the output has one entry per raw element, with `position` fields counting
up from the starting enumerate index. -/
theorem scrapeExtract_titled_positions (n : Nat) (l : List RawElem)
    (h : l.all (fun e => e.h3.isSome) = true) :
    (scrapeExtract n l).length = l.length ∧
    ∀ i (hi : i < (scrapeExtract n l).length),
      Entry.get ((scrapeExtract n l).get ⟨i, hi⟩) "position" =
        some (FVal.num (n + i)) := by
  induction l generalizing n with
  | nil => exact ⟨rfl, fun i hi => absurd hi (Nat.not_lt_zero i)⟩
  | cons e es ih =>
    simp only [List.all_cons, Bool.and_eq_true] at h
    obtain ⟨t, ht⟩ := Option.isSome_iff_exists.mp h.1
    obtain ⟨ihlen, ihpos⟩ := ih (n + 1) h.2
    have hunfold : scrapeExtract n (e :: es) =
        scrapeEntry n t e :: scrapeExtract (n + 1) es := by
      simp only [scrapeExtract, ht]
    rw [hunfold]
    constructor
    · simp [List.length_cons, ihlen]
    · intro i hi
      match i with
      | 0 => simpa [List.get_cons_zero] using scrapeEntry_position n t e
      | Nat.succ j =>
        have hj : j < (scrapeExtract (n + 1) es).length :=
          Nat.lt_of_succ_lt_succ (by simpa [List.length_cons] using hi)
        have hp := ihpos j hj
        simp only [List.get_cons_succ]
        rw [hp]
        congr 2
        omega

/-! ## C2 -/

/-- C2 counterexample: on a page with one fully-populated result element,
the Selenium backend's response is not of the uniform SearchResponse
shape: its entry has no `position` field and the response has no
`ai_overview` key. -/
theorem selenium_response_not_uniform :
    specUniformShape (GoogleVerifierSelenium.search c2page).1 = false ∧
    Response.get? (GoogleVerifierSelenium.search c2page).1 "ai_overview"
      = none ∧
    (asEntries ((GoogleVerifierSelenium.search c2page).1.get?
        "organic_results")).map (fun e => Entry.get e "position")
      = [none] := ⟨rfl, rfl, rfl⟩

/-- C2 amended: the backends return fixed but different shapes.  The
Selenium backend returns a dict whose only key is `organic_results`, with
entries keyed `title`, `link`, `snippet` (no `position`, no
`ai_overview`); the sync Playwright backend's organic results have the
same entry keys; the async scraper returns keys `results_data` and
`ai_overview`, with entries keyed `position`, `title`, `link`, `snippet`;
the SerpApi backend returns the provider's dict unmodified for its
fixed-locale parameters. -/
theorem backend_response_shapes (p : Page) (net : SerpParams → Response)
    (k q : String) :
    ((GoogleVerifierSelenium.search p).1.keys = ["organic_results"]) ∧
    ((asEntries ((GoogleVerifierSelenium.search p).1.get?
        "organic_results")).all
      (fun e => Entry.keys e == ["title", "link", "snippet"]) = true) ∧
    ((playwrightOrganic p).all
      (fun e => Entry.keys e == ["title", "link", "snippet"]) = true) ∧
    ((scrape_google p).1.keys = ["results_data", "ai_overview"]) ∧
    ((scrapeResults p).all
      (fun e => Entry.keys e == ["position", "title", "link", "snippet"])
      = true) ∧
    (GoogleVerifierSerpAPI.search net k q =
      net (SerpParams.mk "google" q "en" "us" k)) := by
  refine ⟨rfl, ?_, ?_, ?_, ?_, rfl⟩
  · have hs : asEntries ((GoogleVerifierSelenium.search p).1.get?
        "organic_results") = seleniumExtract p.divG := rfl
    rw [hs]
    exact seleniumExtract_keys p.divG
  · rw [playwrightOrganic_eq]
    by_cases h : p.h3WaitOk <;> simp [h, playwrightExtract_keys]
  · unfold scrape_google
    by_cases h : p.divGWaitOk <;> simp [h, Response.keys]
  · rw [scrapeResults_eq]
    by_cases h : p.divGWaitOk <;> simp [h, scrapeExtract_keys]

/-! ## C3 -/

/-- C3 counterexample: the Selenium backend on a one-result page with a
non-empty title returns one entry, but the entry has NO `position` field
at all, so the returned entries do not carry positions `1..k`. -/
theorem selenium_no_position_field :
    (asEntries ((GoogleVerifierSelenium.search c3page).1.get?
        "organic_results")).map (fun e => Entry.get e "position")
      = [none] := rfl

/-- C3 amended: for the async browser backend, on a page whose results
wait succeeds and whose k raw elements all have non-empty titles, the
returned results_data has exactly k entries whose `position` fields are
the consecutive integers 1..k in document order. -/
theorem scrape_positions_consecutive (p : Page)
    (hw : p.divGWaitOk = true)
    (ht : p.divG.all hasNonemptyTitle = true) :
    (scrapeResults p).length = p.divG.length ∧
    ∀ i (hi : i < (scrapeResults p).length),
      Entry.get ((scrapeResults p).get ⟨i, hi⟩) "position" =
        some (FVal.num (i + 1)) := by
  have hsome : p.divG.all (fun e => e.h3.isSome) = true := by
    rw [List.all_eq_true] at ht ⊢
    intro e he
    have hne := ht e he
    unfold hasNonemptyTitle at hne
    cases h : e.h3 with
    | none =>
      rw [h] at hne
      exact absurd hne (by simp)
    | some t => simp [h]
  have hres : scrapeResults p = scrapeExtract 1 p.divG := by
    rw [scrapeResults_eq, hw]
    rfl
  obtain ⟨hlen, hpos⟩ := scrapeExtract_titled_positions 1 p.divG hsome
  rw [hres]
  refine ⟨hlen, fun i hi => ?_⟩
  have hp := hpos i hi
  rwa [Nat.add_comm] at hp

/-- Witness for the amended C3 at a concrete two-result page: two entries
come back, one per raw element. -/
theorem scrape_positions_consecutive_witness :
    (scrapeResults c3wpage).length = c3wpage.divG.length :=
  (scrape_positions_consecutive c3wpage rfl (by decide)).1

/-! ## C4 -/

/-- C4 counterexample: the async scraper skips only elements whose title
ELEMENT is missing, so an element whose title element exists with empty
text is emitted with `title = ""` — an empty-titled SearchResult appears
in the returned results. -/
theorem scrape_emits_empty_title :
    scrapeResults c4page =
      [[("position", FVal.num 1), ("title", FVal.str ""),
        ("link", FVal.null), ("snippet", FVal.str "")]] ∧
    entryTitleNonempty ((scrapeResults c4page).headD []) = false :=
  ⟨rfl, rfl⟩

/-- C4 amended: the sync backends (Selenium and sync Playwright) never
emit an entry whose title is missing or whitespace-empty; the async
scraper drops only elements with no title element; and for all three
browser extractions the returned count is at most the raw element
count. -/
theorem sync_backends_filter_empty_titles (p : Page) :
    ((asEntries ((GoogleVerifierSelenium.search p).1.get?
        "organic_results")).all entryTitleNonempty = true) ∧
    ((playwrightOrganic p).all entryTitleNonempty = true) ∧
    ((asEntries ((GoogleVerifierSelenium.search p).1.get?
        "organic_results")).length ≤ p.divG.length) ∧
    ((playwrightOrganic p).length ≤ p.divG.length) ∧
    ((scrapeResults p).length ≤ p.divG.length) := by
  have hs : asEntries ((GoogleVerifierSelenium.search p).1.get?
      "organic_results") = seleniumExtract p.divG := rfl
  rw [hs, playwrightOrganic_eq, scrapeResults_eq]
  refine ⟨seleniumExtract_titles p.divG, ?_, seleniumExtract_length_le p.divG,
    ?_, ?_⟩
  · by_cases h : p.h3WaitOk <;> simp [h, playwrightExtract_titles]
  · by_cases h : p.h3WaitOk <;>
      simp [h, playwrightExtract_length_le]
  · by_cases h : p.divGWaitOk <;> simp [h, scrapeExtract_length_le]
